import Mathlib

/-!
TouchGFXUI: the `Model` / `ModelListener` binding.

A shallow embedding of `src/TouchGFXUI/Model.hpp` and
`src/TouchGFXUI/ModelListener.hpp`.

* A C++ object pointer is `Ptr = Option Addr`; `none` is the null pointer
  (written `0` in `ModelListener() : model(0) {}`).
* An object is the record of its declared data members.  `Model` declares one
  member (`ModelListener* modelListener`), `ModelListener` declares one
  (`Model* model`).
* A method is a function from the receiver (and arguments) to the receiver
  after the call.
* `World` is the store of all `Model` and `ModelListener` objects, indexed by
  address, so that statements about several objects and about what a call
  leaves alone can be made.  A method call on the object at an address
  rewrites that object in the store.
-/

namespace TouchGFXUI

/-- The address (identity) of an object. -/
abbrev Addr := Nat

/-- A C++ object pointer; `none` is the null pointer. -/
abbrev Ptr := Option Addr

/-- The values of `uint16_t`. -/
abbrev U16 := Fin 65536

/-! ## `Model.hpp` -/

/-- The data members of `class Model`: `ModelListener* modelListener;`. -/
structure Model where
  modelListener : Ptr
deriving DecidableEq, Repr

/-- Source: `void bind(ModelListener* listener) { modelListener = listener; }`. -/
def Model.bind (self : Model) (listener : Ptr) : Model :=
  { self with modelListener := listener }

/-- Modelled from the spec: the body of the constructor `Model::Model()` is not
in the fragment (`Model.hpp` only declares it).  The spec says construction of
`Model` leaves the listener reference null/unset. -/
def Model.new : Model :=
  { modelListener := none }

/-- Modelled from the spec: the body of `Model::tick()` is not in the fragment
(`Model.hpp` only declares it).  The spec gives it no contract beyond being a
periodic update hook, and makes `bind` the one operation through which the
listener reference changes; the declared state of a `Model` is that reference
alone, so the receiver is returned as it was. -/
def Model.tick (self : Model) : Model :=
  self

/-- Modelled from the spec: the body of `Model::setStepCount(uint16_t)` is not
in the fragment (`Model.hpp` only declares it).  The spec makes `bind` the one
operation through which the listener reference changes; the class as declared
has no member besides that reference (the counter the spec has it set is
"implied, unset in fragment" and is no member of the class), so the receiver is
returned as it was. -/
def Model.setStepCount (self : Model) (_count : U16) : Model :=
  self

/-! ## `ModelListener.hpp` -/

/-- The data members of `class ModelListener`: `Model* model;`. -/
structure ModelListener where
  model : Ptr
deriving DecidableEq, Repr

/-- Source: `ModelListener() : model(0) {}`. -/
def ModelListener.new : ModelListener :=
  { model := none }

/-- Source: `virtual void updateStepCount(uint16_t count) {}` (the base-class
body). -/
def ModelListener.updateStepCount (self : ModelListener) (_count : U16) : ModelListener :=
  self

/-- Source: `void bind(Model* m) { model = m; }`. -/
def ModelListener.bind (self : ModelListener) (m : Ptr) : ModelListener :=
  { self with model := m }

/-! ## Operations of `Model` as a call sequence on one object -/

/-- The member functions that can be called on a `Model` after construction. -/
inductive ModelOp where
  | bind (listener : Ptr)
  | tick
  | setStepCount (count : U16)
deriving DecidableEq, Repr

/-- Whether the call is `Model::bind`. -/
def ModelOp.isBind : ModelOp → Bool
  | .bind _ => true
  | .tick => false
  | .setStepCount _ => false

/-- One call on a `Model`. -/
def Model.apply (self : Model) : ModelOp → Model
  | .bind listener => self.bind listener
  | .tick => self.tick
  | .setStepCount count => self.setStepCount count

/-- A sequence of calls on a `Model`, first call first. -/
def Model.run (self : Model) (ops : List ModelOp) : Model :=
  ops.foldl Model.apply self

/-! ## The object store -/

/-- All `Model` objects and all `ModelListener` objects, by address.  A
`ModelListener*` with value `some a` refers to `listeners a`, a `Model*` with
value `some a` refers to `models a`. -/
structure World where
  models : Addr → Model
  listeners : Addr → ModelListener

/-- The call `m->bind(listener)` on the `Model` at address `self`. -/
def World.modelBind (w : World) (self : Addr) (listener : Ptr) : World :=
  { w with models := Function.update w.models self ((w.models self).bind listener) }

/-- The call `l->bind(m)` on the `ModelListener` at address `self`. -/
def World.listenerBind (w : World) (self : Addr) (m : Ptr) : World :=
  { w with listeners := Function.update w.listeners self ((w.listeners self).bind m) }

/-- The call `l->updateStepCount(count)` on the `ModelListener` at address
`self`, dispatched to the base-class body. -/
def World.updateStepCount (w : World) (self : Addr) (count : U16) : World :=
  { w with
    listeners := Function.update w.listeners self ((w.listeners self).updateStepCount count) }

/-- A call of one of the member functions defined in the fragment. -/
inductive Call where
  | modelBind (self : Addr) (listener : Ptr)
  | listenerBind (self : Addr) (m : Ptr)
  | updateStepCount (self : Addr) (count : U16)
deriving DecidableEq, Repr

/-- Whether the call is one of the two `bind` functions. -/
def Call.isBind : Call → Bool
  | .modelBind _ _ => true
  | .listenerBind _ _ => true
  | .updateStepCount _ _ => false

/-- One call on the store. -/
def World.step (w : World) : Call → World
  | .modelBind self listener => w.modelBind self listener
  | .listenerBind self m => w.listenerBind self m
  | .updateStepCount self count => w.updateStepCount self count

/-- A sequence of calls on the store, first call first. -/
def World.run (w : World) (calls : List Call) : World :=
  calls.foldl World.step w

/-- A store in which every `ModelListener` is as its constructor leaves it and
every `Model` holds the given initial listener reference. -/
def World.fresh (initial : Ptr) : World :=
  { models := fun _ => { modelListener := initial }
    listeners := fun _ => ModelListener.new }

/-- The `Model` at `m` and the `ModelListener` at `l` point at each other. -/
def World.mutual (w : World) (m l : Addr) : Prop :=
  (w.models m).modelListener = some l ∧ (w.listeners l).model = some m

instance (w : World) (m l : Addr) : Decidable (w.mutual m l) := by
  unfold World.mutual
  infer_instance

/-! ## Helper lemmas -/

theorem World.ext_fields {w w' : World} (hm : w.models = w'.models)
    (hl : w.listeners = w'.listeners) : w = w' := by
  cases w
  cases w'
  simp only [World.mk.injEq]
  exact ⟨hm, hl⟩

theorem World.updateStepCount_eq (w : World) (self : Addr) (count : U16) :
    w.updateStepCount self count = w := by
  apply World.ext_fields
  · rfl
  · simp [World.updateStepCount, ModelListener.updateStepCount]

/-- C1: for every Model state and every non-null listener reference l, after
Model::bind(l) the listener reference equals l, on the object and in the store;
the state before the call has no influence: binding l on any other prior state
gives the same Model. -/
theorem C1_model_bind_stores_listener (m : Model) (l : Ptr) (hl : l ≠ none)
    (w : World) (a : Addr) :
    (m.bind l).modelListener = l ∧
      ((w.modelBind a l).models a).modelListener = l ∧
      ∀ m' : Model, m'.bind l = m.bind l := by
  have _ := hl
  refine ⟨rfl, ?_, fun m' => rfl⟩
  simp [World.modelBind, Model.bind]

theorem C1_model_bind_stores_listener_witness :
    (some 4 : Ptr) ≠ none ∧
      (((⟨some 9⟩ : Model).bind (some 4)).modelListener = some 4 ∧
        (((World.fresh (some 9)).modelBind 2 (some 4)).models 2).modelListener = some 4 ∧
        ∀ m' : Model, m'.bind (some 4) = (⟨some 9⟩ : Model).bind (some 4)) :=
  ⟨by decide, C1_model_bind_stores_listener ⟨some 9⟩ (some 4) (by decide) (World.fresh (some 9)) 2⟩

/-- C2: for every ModelListener state and every non-null model reference p,
after ModelListener::bind(p) the model reference equals p, on the object and in
the store; the state before the call has no influence: binding p on any other
prior state gives the same ModelListener. -/
theorem C2_listener_bind_stores_model (l : ModelListener) (p : Ptr) (hp : p ≠ none)
    (w : World) (a : Addr) :
    (l.bind p).model = p ∧
      ((w.listenerBind a p).listeners a).model = p ∧
      ∀ l' : ModelListener, l'.bind p = l.bind p := by
  have _ := hp
  refine ⟨rfl, ?_, fun l' => rfl⟩
  simp [World.listenerBind, ModelListener.bind]

theorem C2_listener_bind_stores_model_witness :
    (some 6 : Ptr) ≠ none ∧
      (((⟨some 1⟩ : ModelListener).bind (some 6)).model = some 6 ∧
        (((World.fresh none).listenerBind 3 (some 6)).listeners 3).model = some 6 ∧
        ∀ l' : ModelListener, l'.bind (some 6) = (⟨some 1⟩ : ModelListener).bind (some 6)) :=
  ⟨by decide, C2_listener_bind_stores_model ⟨some 1⟩ (some 6) (by decide) (World.fresh none) 3⟩

/-- C3: the base-class ModelListener::updateStepCount is a no-op: for every
uint16 count and every listener state the call yields a result, the listener
is as it was (its model reference included), and in the store nothing changes:
every ModelListener and every Model, the referenced one included, is as it
was. -/
theorem C3_updateStepCount_noop (l : ModelListener) (count : U16) (w : World) (a : Addr) :
    l.updateStepCount count = l ∧
      (l.updateStepCount count).model = l.model ∧
      w.updateStepCount a count = w ∧
      (w.updateStepCount a count).listeners = w.listeners ∧
      (w.updateStepCount a count).models = w.models := by
  refine ⟨rfl, rfl, World.updateStepCount_eq w a count, ?_, rfl⟩
  rw [World.updateStepCount_eq]

/-! ## Construction -/

theorem Model.run_no_bind (ops : List ModelOp) (m : Model)
    (h : ∀ op ∈ ops, op.isBind = false) : m.run ops = m := by
  induction ops generalizing m with
  | nil => rfl
  | cons op rest ih =>
    have hop : op.isBind = false := h op (List.mem_cons_self op rest)
    have hrest : ∀ o ∈ rest, o.isBind = false :=
      fun o ho => h o (List.mem_cons_of_mem op ho)
    have hstep : m.apply op = m := by
      cases op with
      | bind listener => simp [ModelOp.isBind] at hop
      | tick => rfl
      | setStepCount count => rfl
    show (m.apply op).run rest = m
    rw [hstep]
    exact ih m hrest

/-- C4: a freshly constructed Model has a null listener reference, and after
any sequence of calls on it that contains no Model::bind (only tick and
setStepCount) the reference is still null. -/
theorem C4_model_fresh_listener_null (ops : List ModelOp)
    (h : ∀ op ∈ ops, op.isBind = false) :
    Model.new.modelListener = none ∧ (Model.new.run ops).modelListener = none := by
  refine ⟨rfl, ?_⟩
  rw [Model.run_no_bind ops Model.new h]
  rfl

theorem C4_model_fresh_listener_null_witness :
    (∀ op ∈ [ModelOp.tick, ModelOp.setStepCount 7, ModelOp.tick], op.isBind = false) ∧
      (Model.new.modelListener = none ∧
        (Model.new.run [ModelOp.tick, ModelOp.setStepCount 7, ModelOp.tick]).modelListener
          = none) :=
  ⟨by decide, C4_model_fresh_listener_null _ (by decide)⟩

/-- C10: a freshly constructed ModelListener has a null model reference, and
after any number of base-class updateStepCount calls, with any counts and no
bind in between, the model reference is still null. -/
theorem C10_listener_fresh_model_null (counts : List U16) :
    ModelListener.new.model = none ∧
      (counts.foldl ModelListener.updateStepCount ModelListener.new).model = none := by
  refine ⟨rfl, ?_⟩
  have hfold : ∀ (cs : List U16) (l : ModelListener),
      cs.foldl ModelListener.updateStepCount l = l := by
    intro cs
    induction cs with
    | nil => intro l; rfl
    | cons c rest ih =>
      intro l
      show rest.foldl ModelListener.updateStepCount (l.updateStepCount c) = l
      exact ih l
  rw [hfold]
  rfl

/-! ## Several objects -/

/-- C5: for every store, every Model m and every ModelListener l, whatever
they referred to before, calling m.bind(l) and l.bind(m) in either order ends
in a state where m refers to l and l refers to m, and the two orders end in the
same state. -/
theorem C5_mutual_bind_commutes (w : World) (m l : Addr) :
    (w.run [Call.modelBind m (some l), Call.listenerBind l (some m)]).mutual m l ∧
      (w.run [Call.listenerBind l (some m), Call.modelBind m (some l)]).mutual m l ∧
      w.run [Call.modelBind m (some l), Call.listenerBind l (some m)]
        = w.run [Call.listenerBind l (some m), Call.modelBind m (some l)] := by
  refine ⟨?_, ?_, rfl⟩ <;>
    simp [World.run, World.step, World.mutual, World.modelBind, World.listenerBind,
      Model.bind, ModelListener.bind]

/-- C7: Model::bind on the Model at address m changes that Model only: every
ModelListener in the store, the bound listener included, keeps its model
reference, and every other Model keeps its listener reference. -/
theorem C7_model_bind_frame (w : World) (m : Addr) (l : Ptr) (m' : Addr) (h : m' ≠ m) :
    (w.modelBind m l).listeners = w.listeners ∧
      (∀ a : Addr, ((w.modelBind m l).listeners a).model = (w.listeners a).model) ∧
      (w.modelBind m l).models m' = w.models m' := by
  refine ⟨rfl, fun a => rfl, ?_⟩
  simp [World.modelBind, Function.update_noteq h]

theorem C7_model_bind_frame_witness :
    (1 : Addr) ≠ 0 ∧
      (((World.fresh none).modelBind 0 (some 5)).listeners = (World.fresh none).listeners ∧
        (∀ a : Addr, (((World.fresh none).modelBind 0 (some 5)).listeners a).model
          = ((World.fresh none).listeners a).model) ∧
        ((World.fresh none).modelBind 0 (some 5)).models 1 = (World.fresh none).models 1) :=
  ⟨by decide, C7_model_bind_frame (World.fresh none) 0 (some 5) 1 (by decide)⟩

/-- C9: pointing at each other is not kept by the operations.  From freshly
constructed objects (whatever reference the Model constructor leaves), a
sequence of bind calls reaches a state where the Model at 0 refers to the
listener at 0 and that listener refers to the Model at 1, a different Model, so
the two do not point at each other.  No bind repairs this: a Model::bind never
rewrites any listener, a ModelListener::bind never rewrites any Model, and each
bind yields a state on every store. -/
theorem C9_mutual_pointing_not_kept (initial : Ptr) :
    ∃ calls : List Call,
      (∀ c ∈ calls, c.isBind = true) ∧
      (((World.fresh initial).run calls).models 0).modelListener = some 0 ∧
      (((World.fresh initial).run calls).listeners 0).model = some 1 ∧
      (some 1 : Ptr) ≠ some 0 ∧
      ¬ ((World.fresh initial).run calls).mutual 0 0 ∧
      ∀ (w : World) (a : Addr) (p : Ptr),
        (w.modelBind a p).listeners = w.listeners ∧
        (w.listenerBind a p).models = w.models ∧
        (∃ w', w.step (Call.modelBind a p) = w') ∧
        (∃ w', w.step (Call.listenerBind a p) = w') := by
  refine ⟨[Call.modelBind 0 (some 0), Call.listenerBind 0 (some 1)], ?_, ?_, ?_, ?_, ?_, ?_⟩
  · intro c hc
    simp only [List.mem_cons, List.mem_singleton, List.not_mem_nil, or_false] at hc
    rcases hc with rfl | rfl <;> rfl
  · simp [World.run, World.step, World.modelBind, World.listenerBind, Model.bind]
  · simp [World.run, World.step, World.modelBind, World.listenerBind, ModelListener.bind]
  · decide
  · simp [World.run, World.step, World.mutual, World.modelBind, World.listenerBind,
      Model.bind, ModelListener.bind]
  · intro w a p
    exact ⟨rfl, rfl, ⟨_, rfl⟩, ⟨_, rfl⟩⟩

/-! ## Null references -/

/-- C6: bind accepts null and has no error case: Model::bind(null) leaves the
listener reference null and ModelListener::bind(null) leaves the model
reference null, on the object and in the store.  No operation of the fragment
dereferences a stored reference, neither to read nor to write through it:
Model::bind leaves every ModelListener in the store as it was and its result
does not depend on the listeners in the store, ModelListener::bind leaves every
Model in the store as it was and its result does not depend on the Models in
the store, each bind yields exactly the store with the one reference
overwritten by the argument, and updateStepCount changes nothing whatever the
store holds; on unbound objects each operation yields its result. -/
theorem C6_bind_null_no_dereference (m : Model) (l : ModelListener) (w : World) (a : Addr)
    (p : Ptr) (count : U16) (ms : Addr → Model) (ls : Addr → ModelListener) :
    (m.bind none).modelListener = none ∧
      (l.bind none).model = none ∧
      ((w.modelBind a none).models a).modelListener = none ∧
      ((w.listenerBind a none).listeners a).model = none ∧
      (({ w with listeners := ls } : World).modelBind a p).models = (w.modelBind a p).models ∧
      (({ w with models := ms } : World).listenerBind a p).listeners
        = (w.listenerBind a p).listeners ∧
      ({ w with models := ms } : World).updateStepCount a count = { w with models := ms } ∧
      (⟨none⟩ : Model).bind p = ⟨p⟩ ∧
      ModelListener.new.bind p = ⟨p⟩ ∧
      ModelListener.new.updateStepCount count = ModelListener.new ∧
      ((World.fresh none).step (Call.modelBind a p)).models a = ⟨p⟩ ∧
      ((World.fresh none).step (Call.listenerBind a p)).listeners a = ⟨p⟩ ∧
      (World.fresh none).step (Call.updateStepCount a count) = World.fresh none ∧
      (w.modelBind a p).listeners = w.listeners ∧
      (w.listenerBind a p).models = w.models ∧
      (({ w with listeners := ls } : World).modelBind a p).listeners = ls ∧
      (({ w with models := ms } : World).listenerBind a p).models = ms ∧
      w.modelBind a p = { w with models := Function.update w.models a ⟨p⟩ } ∧
      w.listenerBind a p = { w with listeners := Function.update w.listeners a ⟨p⟩ } ∧
      (w.updateStepCount a count).models = w.models ∧
      (w.updateStepCount a count).listeners = w.listeners := by
  refine ⟨rfl, rfl, ?_, ?_, rfl, rfl, World.updateStepCount_eq _ a count, rfl, rfl, rfl,
    ?_, ?_, World.updateStepCount_eq _ a count, rfl, rfl, rfl, rfl, rfl, rfl, rfl, ?_⟩
  · simp [World.modelBind, Model.bind]
  · simp [World.listenerBind, ModelListener.bind]
  · simp [World.step, World.modelBind, Model.bind]
  · simp [World.step, World.listenerBind, ModelListener.bind]
  · rw [World.updateStepCount_eq]

/-! ## The step counter -/

end TouchGFXUI
